import Mathlib

/-!
Shallow embedding of the submission packaging and grading pipeline of
`backend/services/submissions.py` (class `SubmissionService`), together with
proofs of its specified properties.

Python strings are modelled as Lean `String`; the Python `str` operations
used by the source (`split`, `splitlines`, negative-index slicing, `join`)
are re-implemented structurally over the character list so that they are
fully computable by the kernel and match Python semantics on the inputs the
pipeline handles (line terminator `\n`).

The file system is modelled as an environment recording which paths exist
and which files the static-utilities directory contains; the judge0 HTTP
exchange is modelled by a response record (status code plus the parse
outcome of its `stdout` field). Python exceptions are modelled by an error
type `PyError` carried in `Except`.
-/

/-- Python exceptions raised (or propagated) by the pipeline.
`resourceNotFound` embeds `ResourceNotFoundException` from
`backend.services.exceptions`, an exception class carrying a descriptive
message; `runtimeError` embeds Python `RuntimeError`; `jsonDecodeError`
embeds `json.JSONDecodeError` raised by `json.loads` on malformed input;
`keyError` embeds Python `KeyError`; `valueError` embeds the `ValueError`
raised by `int()` on a non-integer-coercible argument. -/
inductive PyError where
  | resourceNotFound (msg : String)
  | runtimeError (msg : String)
  | jsonDecodeError
  | keyError (key : String)
  | valueError
deriving DecidableEq, Repr

/-- A Python value appearing in a per-test JSON record field that the code
coerces with `int(...)`: either a JSON integer or a JSON string. -/
inductive PyVal where
  | vint (n : Int)
  | vstr (s : String)
deriving DecidableEq, Repr

/-- Python `str.split(sep)` for a one-character separator, over the character
list. `splitOnChar sep cs` always returns a nonempty list, as in Python. -/
def splitOnChar (sep : Char) : List Char → List (List Char)
  | [] => [[]]
  | c :: cs =>
    match splitOnChar sep cs with
    | [] => [[]]
    | r :: rs => if c = sep then [] :: r :: rs else (c :: r) :: rs

/-- Python `s.split(sep)` for a one-character separator. -/
def pySplit (s : String) (sep : Char) : List String :=
  (splitOnChar sep s.data).map String.mk

/-- Python `s.split(" ")[0]`: the first space-delimited token. `split` never
returns an empty list in Python, so the default is never taken. -/
def py_first_token (s : String) : String :=
  (pySplit s ' ').headD ""

/-- Python `s.splitlines()` for text whose line terminator is `\n`: splits at
terminators, drops them, and produces no trailing empty line. -/
def pySplitlines (s : String) : List String :=
  if s.data = [] then []
  else
    let parts := (splitOnChar '\n' s.data).map String.mk
    if s.data.getLast? = some '\n' then parts.dropLast else parts

/-- Python `s[-n:]`: the last `n` characters (the whole string when it is
shorter than `n`). -/
def pyTakeRight (s : String) (n : Nat) : String :=
  String.mk (s.data.drop (s.data.length - n))

/-- Python `s[:-1]`: the string without its final character (empty stays
empty). -/
def pyDropLastChar (s : String) : String :=
  String.mk s.data.dropLast

/-- Python `sep.join(parts)`. -/
def pyJoin (sep : String) : List String → String
  | [] => ""
  | [x] => x
  | x :: xs => x ++ sep ++ pyJoin sep xs

/-- Python `int(v)` on a string of an optionally-signed decimal numeral:
the parsed value, or `none` (a `ValueError`) on anything else. -/
def parseNatDigits (acc : Nat) : List Char → Option Nat
  | [] => some acc
  | c :: cs =>
    if c.isDigit then parseNatDigits (acc * 10 + (c.toNat - 48)) cs else none

/-- Python `int(s)` for a string argument: succeeds exactly on
optionally-signed decimal numerals. -/
def pyIntOfString (s : String) : Option Int :=
  match s.data with
  | [] => none
  | '-' :: cs =>
    if cs = [] then none else (parseNatDigits 0 cs).map (fun n => -(n : Int))
  | cs => (parseNatDigits 0 cs).map (fun n => (n : Int))

/-- Python `int(v)` as used on the `score` and `max_score` record fields:
an integer passes through; a string is parsed; a non-numeral string raises
`ValueError`. -/
def pyInt (v : PyVal) : Except PyError Int :=
  match v with
  | .vint n => .ok n
  | .vstr s =>
    match pyIntOfString s with
    | some n => .ok n
    | none => .error .valueError

/-- Python `test["output"]` on a record whose `output` key may be absent:
raises `KeyError` when missing. -/
def get_item (o : Option String) (key : String) : Except PyError String :=
  match o with
  | some v => .ok v
  | none => .error (.keyError key)

/-- One per-test record of the judge report decoded from the judge0
`stdout` field: `{"name": str, "status": str, "score": ..., "max_score": ...,
"output": str (only included if the test failed)}` (docstring of
`send_to_judge0`). -/
structure TestRecord where
  name : String
  status : String
  score : PyVal
  max_score : PyVal
  output : Option String
deriving DecidableEq, Repr

/-- Parse outcome of the `stdout` field of a judge0 response:
`json.loads` fails on it, or it is valid JSON without a `"tests"` key, or it
decodes to a report `{"tests": [...]}`. -/
inductive Stdout where
  | notJson
  | jsonWithoutTests
  | report (tests : List TestRecord)
deriving DecidableEq, Repr

/-- The judge0 HTTP response as consumed by `send_to_judge0`: its status
code and its `stdout` field (given by its parse outcome). -/
structure JudgeResponse where
  status_code : Nat
  stdout : Stdout
deriving DecidableEq, Repr

/-- Modelled from the spec: `Submission` (models package, not under src/) —
{question number, file contents}; construction sites in `submissions.py`
read exactly `submission.question_num` and `submission.file_contents`. -/
structure Submission where
  question_num : Nat
  file_contents : String
deriving DecidableEq, Repr

/-- Modelled from the spec: `Team` (models package, not under src/); the
pipeline reads only `team.name`. -/
structure Team where
  name : String
deriving DecidableEq, Repr

/-- Modelled from the spec: `ConsoleLog` (models package, not under src/) —
a single string, constructed as `ConsoleLog(console_log=...)`. -/
structure ConsoleLog where
  console_log : String
deriving DecidableEq, Repr

/-- Modelled from the spec: `ScoredTest` (models package, not under src/) —
constructed as `ScoredTest(console_log=..., test_name=..., score=...,
max_score=...)` in `grade_submission`. -/
structure ScoredTest where
  console_log : String
  test_name : String
  score : Int
  max_score : Int
deriving DecidableEq, Repr

/-- One entry of the zip archive built by `package_submission`: the name
under which it is stored in the archive (`arcname`) and the file-system
path it was read from. -/
structure ZipEntry where
  arcname : String
  srcPath : String
deriving DecidableEq, Repr

/-- The file-system state visible to the pipeline: whether the
static-utilities directory `backend/autograder_utils` exists, the file
names `os.listdir` returns for it, and which file paths exist. -/
structure Env where
  utilsDirExists : Bool
  utilsFiles : List String
  fileExists : String → Bool

/-- Module-level constant `submissions_dir` of `submissions.py`. -/
def submissions_dir : String := "es_files/submissions"

/-- Local constant `utils_dir` of `package_submission`. -/
def utils_dir : String := "backend/autograder_utils"

/-- Local constant `question_dir` of `package_submission`:
`os.path.join("es_files", "questions", f"q{question_number}")`. -/
def question_dir (question_number : Nat) : String :=
  "es_files/questions/q" ++ toString question_number

/-- Path of the case file `package_submission` looks for:
`demo_cases.py` when `demo`, else `test_cases.py`, inside the question
directory. -/
def case_path (demo : Bool) (question_number : Nat) : String :=
  question_dir question_number ++
    (if demo then "/demo_cases.py" else "/test_cases.py")

/-- Path of a team submission file. Both `submit` (lines 24-36) and
`package_submission` (lines 165-167) build this same expression
`os.path.join(submissions_dir, f"q{question_number}", f"{team_name}.py")`. -/
def submission_path (team_name : String) (question_number : Nat) : String :=
  submissions_dir ++ "/q" ++ toString question_number ++ "/" ++ team_name ++ ".py"

/-- Message of the `RuntimeError` raised by `send_to_judge0` on a non-201
status; the spec calls this failure `JudgeUnavailable`. -/
def judge0_unavailable_msg : String :=
  "Judge0 did not return as expected, please ensure it is running and try again."

/-- Message of the `ResourceNotFoundException` raised by
`package_submission` when the team submission file is absent. -/
def submission_missing_msg (team_name : String) (question_number : Nat) : String :=
  "Team " ++ team_name ++ " did not submit question " ++ toString question_number

/-- The case-file step of `package_submission` (lines 148-162): locate
`demo_cases.py` (demo mode) or `test_cases.py` (scoring mode) for the
question and produce its archive entry, raising `ResourceNotFoundException`
when the file is absent — with the messages exactly as written in the
source, where the scoring branch reports "Demo cases ... not found" and the
demo branch reports "Question ... not found". -/
def case_file_step (env : Env) (question_number : Nat) (demo : Bool) :
    Except PyError ZipEntry :=
  if demo then
    if env.fileExists (case_path true question_number) = false then
      .error (.resourceNotFound
        ("Question " ++ toString question_number ++ " not found"))
    else
      .ok ⟨"demo_cases.py", case_path true question_number⟩
  else
    if env.fileExists (case_path false question_number) = false then
      .error (.resourceNotFound
        ("Demo cases for question " ++ toString question_number ++ " not found"))
    else
      .ok ⟨"test_cases.py", case_path false question_number⟩

/-- Embeds `SubmissionService.package_submission`: packages the utility files, the
question case file and the team submission into one in-memory zip, raising
`ResourceNotFoundException` when a source is missing. The archive is
modelled by its list of entries, in the order the source writes them. -/
def package_submission (env : Env) (team_name : String) (question_number : Nat)
    (demo : Bool) : Except PyError (List ZipEntry) :=
  if env.utilsDirExists = false then
    .error (.resourceNotFound "No Utils Created.")
  else
    match case_file_step env question_number demo with
    | .error e => .error e
    | .ok caseEntry =>
      if env.fileExists (submission_path team_name question_number) = false then
        .error (.resourceNotFound (submission_missing_msg team_name question_number))
      else
        .ok (env.utilsFiles.map (fun file => ZipEntry.mk file (utils_dir ++ "/" ++ file)) ++
          [caseEntry, ⟨"submission.py", submission_path team_name question_number⟩])

/-- Embeds `SubmissionService.submit`: writes the submission file to
`submissions_dir/q{question_num}/{team_name}.py` (creating directories as
needed); on the existence level of the model, it makes exactly that path
exist. -/
def submit (env : Env) (team_name : String) (submission : Submission) : Env :=
  { env with
    fileExists := fun p =>
      if p = submission_path team_name submission.question_num then true
      else env.fileExists p }

/-- Embeds `SubmissionService.send_to_judge0`: posts the archive and inspects the
response. A non-201 status raises `RuntimeError`; otherwise
`json.loads(res_output["stdout"])["tests"]` is returned, with the raw
`JSONDecodeError` (or `KeyError`) propagating uncaught when the `stdout`
field does not decode to a report. -/
def send_to_judge0 (submission_zip : List ZipEntry) (res : JudgeResponse) :
    Except PyError (List TestRecord) :=
  if res.status_code ≠ 201 then
    .error (.runtimeError judge0_unavailable_msg)
  else
    match res.stdout with
    | .notJson => .error .jsonDecodeError
    | .jsonWithoutTests => .error (.keyError "tests")
    | .report tests => .ok tests

/-- Fixed disclaimer line opening every feedback console log
(line 57 of `submissions.py`). -/
def feedback_disclaimer : String :=
  "Note: These tests may or may not be used in final score calculation.\n"

/-- Header line of the syntax-error cleanup branch (line 64). -/
def syntax_error_header : String :=
  "Running tests failed due to a syntax error.\n"

/-- Line indices kept from a syntax-error stack trace (line 63 of the
source, variable name kept with its typo). -/
def lines_to_inlcude : List Nat := [1, 8, 9, 10, 11]

/-- Lines of `lines` whose index is in `idxs`, in order:
`[line for i, line in enumerate(lines) if i in idxs]`. -/
def pick_lines (idxs : List Nat) (lines : List String) : List String :=
  (lines.enum.filter (fun p => idxs.contains p.1)).map (fun p => p.2)

/-- The text appended to the feedback console log for one test record
(loop body of `run_submission`, lines 58-69). -/
def interpret_feedback_line (test : TestRecord) : Except PyError String :=
  if test.status = "failed" then
    match get_item test.output "output" with
    | .error e => .error e
    | .ok output =>
      if pyTakeRight output 16 = "invalid syntax\n\n" then
        let output_lines := pySplitlines output
        .ok (syntax_error_header ++
          pyJoin "\n" (pick_lines lines_to_inlcude output_lines) ++ "\n")
      else
        .ok (py_first_token test.name ++ " " ++ output)
  else
    .ok (py_first_token test.name ++ " passed!\n")

/-- Concatenation of the per-test feedback texts, in payload order; an
exception raised at one record aborts the whole loop. -/
def feedback_body : List TestRecord → Except PyError String
  | [] => .ok ""
  | t :: ts =>
    match interpret_feedback_line t with
    | .error e => .error e
    | .ok line =>
      match feedback_body ts with
      | .error e => .error e
      | .ok rest => .ok (line ++ rest)

/-- The feedback Result Interpreter (lines 57-71 of `run_submission`):
disclaimer plus one appended text per test, with the final trailing
character removed (`out_str[:-1]`). -/
def interpret_feedback (test_results : List TestRecord) :
    Except PyError ConsoleLog :=
  match feedback_body test_results with
  | .error e => .error e
  | .ok body => .ok ⟨pyDropLastChar (feedback_disclaimer ++ body)⟩

/-- Embeds `SubmissionService.run_submission`: package (demo mode), dispatch,
interpret as console log. The judge response is an input of the model. -/
def run_submission (env : Env) (res : JudgeResponse) (question_num : Nat)
    (team_name : String) : Except PyError ConsoleLog :=
  match package_submission env team_name question_num true with
  | .error e => .error e
  | .ok submission_zip =>
    match send_to_judge0 submission_zip res with
    | .error e => .error e
    | .ok test_results => interpret_feedback test_results

/-- Embeds `SubmissionService.submit_and_run`: store the submission, then run it
in feedback mode for the same team name and question number. -/
def submit_and_run (env : Env) (res : JudgeResponse) (team : Team)
    (submission : Submission) : Except PyError ConsoleLog :=
  run_submission (submit env team.name submission) res
    submission.question_num team.name

/-- One `ScoredTest` built by the loop body of `grade_submission`
(lines 87-91), with the keyword arguments evaluated in source order:
`console_log` (reading `test["output"]` in the failed branch), then
`int(test["score"])`, then `int(test["max_score"])`. -/
def grade_test (test : TestRecord) : Except PyError ScoredTest :=
  if test.status = "passed" then
    match pyInt test.score with
    | .error e => .error e
    | .ok s =>
      match pyInt test.max_score with
      | .error e => .error e
      | .ok m => .ok ⟨"Passed", test.name, s, m⟩
  else
    match get_item test.output "output" with
    | .error e => .error e
    | .ok output =>
      match pyInt test.score with
      | .error e => .error e
      | .ok s =>
        match pyInt test.max_score with
        | .error e => .error e
        | .ok m => .ok ⟨output, test.name, s, m⟩

/-- The scoring Result Interpreter (loop of `grade_submission`,
lines 86-93): one `ScoredTest` per record, in payload order; an exception
raised at one record aborts the whole loop. -/
def interpret_scoring : List TestRecord → Except PyError (List ScoredTest)
  | [] => .ok []
  | t :: ts =>
    match grade_test t with
    | .error e => .error e
    | .ok st =>
      match interpret_scoring ts with
      | .error e => .error e
      | .ok rest => .ok (st :: rest)

/-- Embeds `SubmissionService.grade_submission`: package (scoring mode), dispatch,
interpret as scored tests. -/
def grade_submission (env : Env) (res : JudgeResponse) (question_num : Nat)
    (team_name : String) : Except PyError (List ScoredTest) :=
  match package_submission env team_name question_num false with
  | .error e => .error e
  | .ok submission_zip =>
    match send_to_judge0 submission_zip res with
    | .error e => .error e
    | .ok test_results => interpret_scoring test_results

/-- A `PyVal` that is a JSON integer. -/
def isVint : PyVal → Bool
  | .vint _ => true
  | .vstr _ => false

/-- Total version of the `int(...)` coercion, for stating the expected
scored test; under the C8 hypotheses it never takes the default. -/
def pyIntD (v : PyVal) : Int :=
  match pyInt v with
  | .ok n => n
  | .error _ => 0

/-- The spec's description of the `ScoredTest` emitted for one test
record: console log "Passed" when the status is passed and the raw output
text otherwise, with score and max score copied verbatim as integers. -/
def scoredTestSpec (t : TestRecord) : ScoredTest :=
  { console_log := if t.status = "passed" then "Passed" else t.output.getD ""
    test_name := t.name
    score := pyIntD t.score
    max_score := pyIntD t.max_score }

/-- Concrete environment for the C1 witness: both case files, every
submission and two utility files present. -/
def env_all_present : Env := ⟨true, ["run_tests.py", "helper.py"], fun _ => true⟩

/-- Concrete environment for the C2 witness: the submission exists but the
scoring case file (and every other path) is missing. -/
def env_no_case_file : Env :=
  ⟨true, ["run_tests.py"], fun p => p = "es_files/submissions/q3/team1.py"⟩

/-- Concrete environment for the C10 witness: utilities present, no case
files. -/
def env_no_cases : Env := ⟨true, ["run_tests.py"], fun _ => false⟩

/-- Syntax-error stack trace used by the C7 witness: 14 lines, the last
two characters of the text being the two trailing line terminators. -/
def c7_output : String :=
  "L0\nL1\nL2\nL3\nL4\nL5\nL6\nL7\nL8\nL9\nL10\nL11\ninvalid syntax\n\n"

/-- Failed test record used by the C7 witness. -/
def c7_test : TestRecord := ⟨"t3 desc", "failed", .vint 0, .vint 5, some c7_output⟩

/-- The example payload of the C8 claim: one passed and one failed test. -/
def c8_example : List TestRecord :=
  [⟨"t1 x", "passed", .vint 5, .vint 5, none⟩,
   ⟨"t2 y", "failed", .vint 0, .vint 5, some "AssertionError"⟩]

/-- Concrete environment for the C9 witness: nothing on disk but the
utilities directory. -/
def env_only_utils : Env := ⟨true, [], fun _ => false⟩

/-- Concrete judge response for the C9 witness. -/
def res_empty_report : JudgeResponse := ⟨201, .report []⟩

/-- A successful `case_file_step` produces the entry of the mode's case
file under its canonical slot name. -/
theorem case_file_step_ok (env : Env) (question_number : Nat) (demo : Bool)
    (hC : env.fileExists (case_path demo question_number) = true) :
    case_file_step env question_number demo =
      .ok ⟨if demo then "demo_cases.py" else "test_cases.py",
        case_path demo question_number⟩ := by
  cases demo <;> simp [case_file_step, hC]

/-- C1: for every team name and question number such that the
static-utilities directory exists, the question case file of the chosen
mode exists, and the team submission exists, `package_submission` succeeds
and the archive holds exactly 2 + |utilities| entries: every utility file
under its original name, the case file under the canonical slot name
(`demo_cases.py` when demo, `test_cases.py` otherwise), and the submission
file under the canonical slot name `submission.py`, regardless of the
submission file's original name `{team_name}.py`. -/
theorem C1_package_submission_complete_archive
    (env : Env) (team_name : String) (question_number : Nat) (demo : Bool)
    (hU : env.utilsDirExists = true)
    (hC : env.fileExists (case_path demo question_number) = true)
    (hS : env.fileExists (submission_path team_name question_number) = true) :
    package_submission env team_name question_number demo =
      .ok (env.utilsFiles.map (fun file => ZipEntry.mk file (utils_dir ++ "/" ++ file)) ++
        [⟨if demo then "demo_cases.py" else "test_cases.py",
           case_path demo question_number⟩,
         ⟨"submission.py", submission_path team_name question_number⟩]) ∧
    (env.utilsFiles.map (fun file => ZipEntry.mk file (utils_dir ++ "/" ++ file)) ++
      [ZipEntry.mk (if demo then "demo_cases.py" else "test_cases.py")
         (case_path demo question_number),
       ZipEntry.mk "submission.py"
         (submission_path team_name question_number)]).length =
      2 + env.utilsFiles.length := by
  constructor
  · unfold package_submission
    rw [case_file_step_ok env question_number demo hC]
    simp [hU, hS]
  · simp [Nat.add_comm]

/-- Witness for C1 at a concrete environment with two utility files. -/
theorem C1_witness :
    package_submission env_all_present "team1" 3 true =
      .ok [⟨"run_tests.py", "backend/autograder_utils/run_tests.py"⟩,
           ⟨"helper.py", "backend/autograder_utils/helper.py"⟩,
           ⟨"demo_cases.py", "es_files/questions/q3/demo_cases.py"⟩,
           ⟨"submission.py", "es_files/submissions/q3/team1.py"⟩] :=
  (C1_package_submission_complete_archive env_all_present "team1" 3 true
    rfl rfl rfl).1

/-- An erroring `case_file_step` reports one of the two case-file
messages of the source. -/
theorem case_file_step_error (env : Env) (question_number : Nat) (demo : Bool)
    (e : PyError) (h : case_file_step env question_number demo = .error e) :
    e = .resourceNotFound ("Question " ++ toString question_number ++ " not found") ∨
    e = .resourceNotFound
      ("Demo cases for question " ++ toString question_number ++ " not found") := by
  unfold case_file_step at h
  split at h <;> split at h <;> simp_all

/-- C2: if any one of the three sources (utilities directory, the chosen
mode's case file, the team submission) is missing, `package_submission`
fails with a `ResourceNotFoundException` and returns no archive. -/
theorem C2_package_submission_atomic_failure
    (env : Env) (team_name : String) (question_number : Nat) (demo : Bool)
    (h : env.utilsDirExists = false ∨
      env.fileExists (case_path demo question_number) = false ∨
      env.fileExists (submission_path team_name question_number) = false) :
    ∃ msg, package_submission env team_name question_number demo =
      .error (.resourceNotFound msg) := by
  cases hU : env.utilsDirExists with
  | false =>
    exact ⟨"No Utils Created.", by simp [package_submission, hU]⟩
  | true =>
    cases hcs : case_file_step env question_number demo with
    | error e =>
      rcases case_file_step_error env question_number demo e hcs with he | he <;>
        subst he
      · exact ⟨"Question " ++ toString question_number ++ " not found",
          by simp [package_submission, hU, hcs]⟩
      · exact ⟨"Demo cases for question " ++ toString question_number ++ " not found",
          by simp [package_submission, hU, hcs]⟩
    | ok caseEntry =>
      rcases h with h | h | h
      · rw [hU] at h; cases h
      · exfalso
        cases demo <;> simp [case_file_step, h] at hcs
      · exact ⟨submission_missing_msg team_name question_number,
          by simp [package_submission, hU, hcs, h]⟩

/-- Witness for C2 at a concrete environment whose case file is missing. -/
theorem C2_witness :
    ∃ msg, package_submission env_no_case_file "team1" 3 false =
      .error (.resourceNotFound msg) :=
  C2_package_submission_atomic_failure env_no_case_file "team1" 3 false
    (Or.inr (Or.inl (by decide)))

/-- C3: on any judge response whose HTTP status is not 201,
`send_to_judge0` fails with the `RuntimeError` the spec calls
`JudgeUnavailable` — an `Except.error`, hence distinct from every `.ok`
grading outcome — and returns no test results. -/
theorem C3_non_success_status_judge_unavailable
    (submission_zip : List ZipEntry) (res : JudgeResponse)
    (h : res.status_code ≠ 201) :
    send_to_judge0 submission_zip res =
      .error (.runtimeError judge0_unavailable_msg) := by
  simp [send_to_judge0, h]

/-- Witness for C3 at a concrete 503 response. -/
theorem C3_witness :
    send_to_judge0 [] ⟨503, .report []⟩ =
      .error (.runtimeError judge0_unavailable_msg) :=
  C3_non_success_status_judge_unavailable [] ⟨503, .report []⟩ (by decide)

/-- C4: evaluation of the code at the failing input — a 201 response whose
`stdout` is not well-formed JSON makes `send_to_judge0` propagate the raw
`json.JSONDecodeError` from `json.loads`, not the `RuntimeError`
(`JudgeUnavailable`) the claim requires. -/
theorem C4_raw_decode_error_propagates :
    send_to_judge0 [] ⟨201, .notJson⟩ = .error .jsonDecodeError :=
  rfl

/-- C5: evaluation of the code at the failing input — a per-test record
whose `score` is the non-integer-coercible string "abc" makes the scoring
interpreter propagate the raw `ValueError` from `int()`, not the
`RuntimeError` (`JudgeUnavailable`) the claim requires; it does not
substitute zero and return a result. -/
theorem C5_raw_value_error_propagates :
    interpret_scoring
      [⟨"t1 x", "failed", .vstr "abc", .vint 5, some "AssertionError"⟩] =
      .error .valueError :=
  rfl

/-- C6: a verdict payload of exactly one passed test named
"t1 description" yields a console log equal to the fixed disclaimer line
followed by "t1 passed!\n" with the final trailing character removed,
i.e. disclaimer ++ "t1 passed!". -/
theorem C6_feedback_single_passed_test :
    interpret_feedback [⟨"t1 description", "passed", .vint 5, .vint 5, none⟩] =
      .ok ⟨feedback_disclaimer ++ "t1 passed!"⟩ ∧
    feedback_disclaimer ++ "t1 passed!" =
      pyDropLastChar (feedback_disclaimer ++ "t1 passed!\n") :=
  ⟨rfl, rfl⟩

/-- C10: with the utilities present, the scoring branch (demo = false,
`test_cases.py` missing) raises the message "Demo cases for question N not
found" while the feedback branch (demo = true, `demo_cases.py` missing)
raises "Question N not found" — the two messages are swapped relative to
the file each branch actually looked for, so a scoring failure reports
itself as a demo-cases problem. -/
theorem C10_swapped_case_file_messages
    (env : Env) (team_name : String) (question_number : Nat)
    (hU : env.utilsDirExists = true)
    (hT : env.fileExists (case_path false question_number) = false)
    (hD : env.fileExists (case_path true question_number) = false) :
    package_submission env team_name question_number false =
      .error (.resourceNotFound
        ("Demo cases for question " ++ toString question_number ++ " not found")) ∧
    package_submission env team_name question_number true =
      .error (.resourceNotFound
        ("Question " ++ toString question_number ++ " not found")) := by
  constructor <;> simp [package_submission, case_file_step, hU, hT, hD]

/-- Witness for C10 at question 3. -/
theorem C10_witness :
    package_submission env_no_cases "team1" 3 false =
      .error (.resourceNotFound "Demo cases for question 3 not found") ∧
    package_submission env_no_cases "team1" 3 true =
      .error (.resourceNotFound "Question 3 not found") :=
  C10_swapped_case_file_messages env_no_cases "team1" 3 rfl rfl rfl

/-- C7: a failed test whose output ends with the literal
"invalid syntax\n\n" contributes to the console log the "failed due to a
syntax error" header followed by exactly the lines at indices 1, 8, 9, 10
and 11 of the output split into lines, in that order, and no other lines
of that output. -/
theorem C7_syntax_error_line_selection (test : TestRecord) (output : String)
    (hs : test.status = "failed")
    (ho : test.output = some output)
    (hm : pyTakeRight output 16 = "invalid syntax\n\n") :
    interpret_feedback_line test =
      .ok (syntax_error_header ++
        pyJoin "\n" (pick_lines [1, 8, 9, 10, 11] (pySplitlines output)) ++ "\n") := by
  simp [interpret_feedback_line, hs, ho, get_item, hm, lines_to_inlcude]

/-- Witness for C7: exactly lines 1, 8, 9, 10, 11 of the trace appear
after the header. -/
theorem C7_witness :
    interpret_feedback_line c7_test =
      .ok "Running tests failed due to a syntax error.\nL1\nL8\nL9\nL10\nL11\n" :=
  C7_syntax_error_line_selection c7_test c7_output rfl rfl rfl

/-- A record with integer scores and, when not passed, a present output
grades to exactly the scored test the spec describes. -/
theorem grade_test_ok (t : TestRecord)
    (hsc : isVint t.score = true) (hms : isVint t.max_score = true)
    (ho : t.status = "passed" ∨ t.output.isSome = true) :
    grade_test t = .ok (scoredTestSpec t) := by
  rcases t with ⟨name, status, score, max_score, output⟩
  cases score with
  | vstr s => simp [isVint] at hsc
  | vint ns =>
    cases max_score with
    | vstr s => simp [isVint] at hms
    | vint nm =>
      by_cases hp : status = "passed"
      · simp [grade_test, scoredTestSpec, hp, pyInt, pyIntD]
      · rcases ho with ho | ho
        · exact absurd ho hp
        · cases output with
          | none => simp at ho
          | some out =>
            simp [grade_test, scoredTestSpec, hp, pyInt, pyIntD, get_item]

/-- C8: on a payload every record of which carries integer-valued scores
and, when not passed, an output text, the scoring interpreter emits exactly
one `ScoredTest` per record, in payload order, with console log "Passed"
for passed records and the raw output text otherwise, and score and max
score copied verbatim as integers. -/
theorem C8_scoring_interpreter_maps_records (tests : List TestRecord)
    (h : tests.all (fun t => isVint t.score && isVint t.max_score &&
      (t.status == "passed" || t.output.isSome)) = true) :
    interpret_scoring tests = .ok (tests.map scoredTestSpec) := by
  induction tests with
  | nil => rfl
  | cons t ts ih =>
    simp only [List.all_cons, Bool.and_eq_true, Bool.or_eq_true] at h
    obtain ⟨⟨⟨hsc, hms⟩, ho⟩, hrest⟩ := h
    have ho2 : t.status = "passed" ∨ t.output.isSome = true := by
      rcases ho with ho | ho
      · exact Or.inl (eq_of_beq ho)
      · exact Or.inr ho
    simp [interpret_scoring, grade_test_ok t hsc hms ho2, ih hrest]

/-- Witness for C8: the claim's example payload yields exactly
[ScoredTest(t1 x, 5, 5, "Passed"), ScoredTest(t2 y, 0, 5,
"AssertionError")]. -/
theorem C8_witness :
    interpret_scoring c8_example =
      .ok [⟨"Passed", "t1 x", 5, 5⟩, ⟨"AssertionError", "t2 y", 0, 5⟩] :=
  C8_scoring_interpreter_maps_records c8_example (by decide)

/-- Strings whose first characters differ are different strings. -/
theorem ne_of_data_head_ne {s t : String} (h : s.data.head? ≠ t.data.head?) :
    s ≠ t :=
  fun e => h (congrArg (fun x => String.data x |>.head?) e)

/-- The utilities-missing message never coincides with a
submission-missing message (their first characters differ). -/
theorem no_utils_msg_ne_submission_msg (team_name : String)
    (question_number : Nat) :
    "No Utils Created." ≠ submission_missing_msg team_name question_number :=
  ne_of_data_head_ne (by
    have h1 : "No Utils Created.".data.head? = some 'N' := rfl
    have h2 : (submission_missing_msg team_name question_number).data.head? =
      some 'T' := rfl
    rw [h1, h2]; decide)

/-- The demo-branch case-file message never coincides with a
submission-missing message. -/
theorem question_msg_ne_submission_msg (team_name : String)
    (m question_number : Nat) :
    "Question " ++ toString m ++ " not found" ≠
      submission_missing_msg team_name question_number :=
  ne_of_data_head_ne (by
    have h1 : ("Question " ++ toString m ++ " not found").data.head? =
      some 'Q' := rfl
    have h2 : (submission_missing_msg team_name question_number).data.head? =
      some 'T' := rfl
    rw [h1, h2]; decide)

/-- The scoring-branch case-file message never coincides with a
submission-missing message. -/
theorem demo_msg_ne_submission_msg (team_name : String)
    (m question_number : Nat) :
    "Demo cases for question " ++ toString m ++ " not found" ≠
      submission_missing_msg team_name question_number :=
  ne_of_data_head_ne (by
    have h1 : ("Demo cases for question " ++ toString m ++ " not found").data.head? =
      some 'D' := rfl
    have h2 : (submission_missing_msg team_name question_number).data.head? =
      some 'T' := rfl
    rw [h1, h2]; decide)

/-- The judge client `send_to_judge0` never raises a `ResourceNotFoundException`: its
failures are the `RuntimeError`, a `JSONDecodeError` or a `KeyError`. -/
theorem send_to_judge0_no_resource_error (submission_zip : List ZipEntry)
    (res : JudgeResponse) (msg : String) :
    send_to_judge0 submission_zip res ≠ .error (.resourceNotFound msg) := by
  unfold send_to_judge0
  split
  · simp
  · split <;> simp

/-- One feedback loop iteration never raises a
`ResourceNotFoundException`: its only failure is the `KeyError` on a
missing output field. -/
theorem interpret_feedback_line_no_resource_error (test : TestRecord)
    (msg : String) :
    interpret_feedback_line test ≠ .error (.resourceNotFound msg) := by
  rcases test with ⟨name, status, score, max_score, output⟩
  unfold interpret_feedback_line
  cases output with
  | none => split <;> simp [get_item]
  | some out =>
    split
    · simp only [get_item]
      split <;> simp
    · simp

/-- The feedback loop never raises a `ResourceNotFoundException`. -/
theorem feedback_body_no_resource_error (tests : List TestRecord)
    (msg : String) :
    feedback_body tests ≠ .error (.resourceNotFound msg) := by
  induction tests with
  | nil => simp [feedback_body]
  | cons t ts ih =>
    intro h
    unfold feedback_body at h
    cases hl : interpret_feedback_line t with
    | error e =>
      rw [hl] at h
      simp at h
      exact interpret_feedback_line_no_resource_error t msg (by rw [hl, h])
    | ok line =>
      rw [hl] at h
      cases hb : feedback_body ts with
      | error e2 =>
        rw [hb] at h
        simp at h
        exact ih (by rw [hb, h])
      | ok rest =>
        rw [hb] at h
        simp at h

/-- The feedback Result Interpreter never raises a
`ResourceNotFoundException`. -/
theorem interpret_feedback_no_resource_error (tests : List TestRecord)
    (msg : String) :
    interpret_feedback tests ≠ .error (.resourceNotFound msg) := by
  intro h
  unfold interpret_feedback at h
  cases hb : feedback_body tests with
  | error e =>
    rw [hb] at h
    simp at h
    exact feedback_body_no_resource_error tests msg (by rw [hb, h])
  | ok body =>
    rw [hb] at h
    simp at h

/-- After `submit`, the path `package_submission` checks for the team
submission exists: both sites build the same
`submissions_dir/q{question_num}/{team_name}.py` expression. -/
theorem submit_fileExists (env : Env) (team_name : String)
    (submission : Submission) :
    (submit env team_name submission).fileExists
      (submission_path team_name submission.question_num) = true := by
  simp [submit]

/-- C9: storing a submission and then immediately running feedback for the
same team name and question number (as `submit_and_run` does) never fails
with the submission-missing `ResourceNotFoundException`: the path `submit`
writes is exactly the path `package_submission` reads, so that error
branch is unreachable after a store. -/
theorem C9_store_then_run_no_submission_error
    (env : Env) (res : JudgeResponse) (team : Team) (submission : Submission) :
    submit_and_run env res team submission ≠
      .error (.resourceNotFound
        (submission_missing_msg team.name submission.question_num)) := by
  intro h
  unfold submit_and_run run_submission at h
  cases hp : package_submission (submit env team.name submission) team.name
      submission.question_num true with
  | error e =>
    rw [hp] at h
    simp at h
    subst h
    unfold package_submission at hp
    split at hp
    · simp at hp
      exact no_utils_msg_ne_submission_msg team.name submission.question_num hp
    · cases hcs : case_file_step (submit env team.name submission)
          submission.question_num true with
      | error e2 =>
        rw [hcs] at hp
        simp at hp
        rcases case_file_step_error _ _ _ e2 hcs with he | he <;>
          rw [he] at hp <;> simp at hp
        · exact question_msg_ne_submission_msg team.name
            submission.question_num submission.question_num hp
        · exact demo_msg_ne_submission_msg team.name
            submission.question_num submission.question_num hp
      | ok caseEntry =>
        rw [hcs, submit_fileExists env team.name submission] at hp
        simp at hp
  | ok zip =>
    rw [hp] at h
    have h2 : (match send_to_judge0 zip res with
        | Except.error e => Except.error e
        | Except.ok test_results => interpret_feedback test_results) =
        Except.error (PyError.resourceNotFound
          (submission_missing_msg team.name submission.question_num)) := h
    cases hs : send_to_judge0 zip res with
    | error e =>
      rw [hs] at h2
      simp at h2
      exact send_to_judge0_no_resource_error zip res _ (by rw [hs, h2])
    | ok tests =>
      rw [hs] at h2
      exact interpret_feedback_no_resource_error tests _ h2

/-- Witness for C9 at a concrete store-then-run call. -/
theorem C9_witness :
    submit_and_run env_only_utils res_empty_report ⟨"team1"⟩ ⟨3, "x = 1"⟩ ≠
      .error (.resourceNotFound (submission_missing_msg "team1" 3)) :=
  C9_store_then_run_no_submission_error env_only_utils res_empty_report
    ⟨"team1"⟩ ⟨3, "x = 1"⟩

example : pySplitlines "a\nb\n" = ["a", "b"] := by decide
example : pySplitlines "" = [] := by decide
example : pyTakeRight "xinvalid syntax\n\n" 16 = "invalid syntax\n\n" := by decide
example : py_first_token "t1 description" = "t1" := by decide
example : pyJoin "\n" ["a", "b", "c"] = "a\nb\nc" := by decide
example : pick_lines [1, 3] ["a", "b", "c", "d", "e"] = ["b", "d"] := by decide
example : pyInt (.vstr "-12") = .ok (-12) := rfl
example : pyInt (.vstr "1a") = .error .valueError := rfl
